import Mathlib

/-!
Shallow embedding of the transaction core of the inventory management
system (src/database.py), together with the reporting helper
`get_category_performance` and the customer upsert.

Modelling conventions:
* SQLite `INTEGER` columns are `ℤ` (they may go negative, the schema has
  no CHECK constraints); `REAL` money columns are `ℚ`.
* Tables keyed by a primary key (`products`, `customers`, `users`) are
  functions `key → Option row`; a SQL `UPDATE ... WHERE id=?` on a
  missing key is a no-op, which `Option.map` reproduces.
* The `sales` table is an association list `(id, row)` in insertion
  order; `AUTOINCREMENT` is the `next_sale_id` counter.
* The source serialises a sale's item ids as a comma separated string
  (`items_data`); joining and re-splitting that string is the identity
  on the id list, so the embedding stores the id list directly.  The
  guard `if items_data_str:` in the source corresponds to folding over
  an empty list, which is likewise a no-op.
* `datetime.now()` is an effect; it enters as an explicit `now`
  argument.  `hashlib.sha256(password)` is an external pure function:
  the cancel operation receives the already-hashed credential `ph` and
  compares it with the stored `password_hash`, exactly as line 211-213
  of the source do.
-/

structure Product where
  name : String
  category : String
  price : ℚ
  stock : ℤ
  cost_price : ℚ
  sales_count : ℤ
deriving Repr, DecidableEq

structure Customer where
  name : String
  email : String
  visits : ℤ
  total_spend : ℚ
  segment : String
deriving Repr, DecidableEq

structure Sale where
  total_amount : ℚ
  items_data : List ℕ
  operator : String
  payment_mode : String
  status : String
  customer_mobile : Option String
  cancellation_reason : Option String
  cancelled_by : Option String
  cancellation_timestamp : Option String
deriving Repr, DecidableEq

structure User where
  password_hash : String
  role : String
deriving Repr, DecidableEq

structure LogEntry where
  timestamp : String
  user : String
  action : String
  details : String
deriving Repr, DecidableEq

structure DB where
  products : ℕ → Option Product
  customers : String → Option Customer
  sales : List (ℕ × Sale)
  next_sale_id : ℕ
  users : String → Option User
  logs : List LogEntry

/-- Python's `str.strip()`: remove leading and trailing whitespace.
Defined structurally over the character list so that concrete instances
evaluate inside the kernel. -/
def pyStrip (s : String) : String :=
  String.mk (((s.toList.dropWhile Char.isWhitespace).reverse.dropWhile
    Char.isWhitespace).reverse)

/-- One iteration of the commit loop (database.py line 158):
`UPDATE products SET stock = stock - 1, sales_count = sales_count + 1 WHERE id=?`. -/
def commitItem (ps : ℕ → Option Product) (pid : ℕ) : ℕ → Option Product :=
  fun j =>
    if j = pid then
      (ps j).map (fun p => { p with stock := p.stock - 1, sales_count := p.sales_count + 1 })
    else ps j

/-- One iteration of the cancellation restore loop (database.py line 232):
`UPDATE products SET stock = stock + 1, sales_count = sales_count - 1 WHERE id=?`. -/
def restoreItem (ps : ℕ → Option Product) (pid : ℕ) : ℕ → Option Product :=
  fun j =>
    if j = pid then
      (ps j).map (fun p => { p with stock := p.stock + 1, sales_count := p.sales_count - 1 })
    else ps j

/-- The segment computation of `process_sale_transaction`
(database.py lines 186-189).  The source initialises `new_seg = "New"`
but every branch of the chain overwrites it, so the initial value is dead. -/
def segmentForSpend (new_spend : ℚ) : String :=
  if new_spend > 50000 then "High-Value"
  else if new_spend > 10000 then "Regular"
  else "Occasional"

/-- The segment computation of the demo-data seeding path,
`seed_advanced_demo_data` (database.py lines 548-551).  Note the
`Regular` boundary is 15000 here, not 10000. -/
def seedSegment (spend : ℚ) (visits : ℤ) : String :=
  let segment :=
    if spend > 50000 then "High-Value"
    else if spend > 15000 then "Regular"
    else "Occasional"
  if visits = 0 then "New" else segment

/-- The sale row inserted by the commit (database.py lines 169-174):
status `Completed`, no discount or cancellation metadata. -/
def commitSaleRow (cart_items : List ℕ) (total : ℚ) (mode operator : String)
    (customer_mobile : Option String) : Sale :=
  { total_amount := total, items_data := cart_items, operator := operator,
    payment_mode := mode, status := "Completed", customer_mobile := customer_mobile,
    cancellation_reason := none, cancelled_by := none, cancellation_timestamp := none }

/-- `process_sale_transaction` (database.py lines 145-201).  The cart is
the list of product ids of the cart items (the source reads only
`item['id']` from each cart entry); `total`, `mode`, `operator` and the
optional `customer_mobile` are passed through from the caller.  Returns
the assigned sale id and the new database state.  The source performs no
stock or existence validation: it unconditionally decrements stock once
per cart entry, inserts the sale row with status `Completed`, and — only
when the customer already exists — adds the total to the customer's
spend, increments visits and recomputes the segment. -/
def process_sale_transaction (db : DB) (cart_items : List ℕ) (total : ℚ)
    (mode operator : String) (customer_mobile : Option String) : ℕ × DB :=
  let ps := cart_items.foldl commitItem db.products
  let sale : Sale := commitSaleRow cart_items total mode operator customer_mobile
  let sale_id := db.next_sale_id
  let customers :=
    match customer_mobile with
    | none => db.customers
    | some m0 =>
      if m0 = "" then db.customers
      else
        let m := pyStrip m0
        match db.customers m with
        | none => db.customers
        | some cu =>
          let new_spend := cu.total_spend + total
          let new_seg := segmentForSpend new_spend
          fun k =>
            if k = m then
              some { cu with visits := cu.visits + 1, total_spend := new_spend,
                             segment := new_seg }
            else db.customers k
  (sale_id,
    { db with products := ps, sales := db.sales ++ [(sale_id, sale)],
              next_sale_id := db.next_sale_id + 1, customers := customers })

/-- `SELECT ... FROM sales WHERE id=?` followed by `fetchone()`:
the first row whose primary key matches. -/
def fetchSale (sales : List (ℕ × Sale)) (sid : ℕ) : Option Sale :=
  match sales with
  | [] => none
  | e :: rest => if e.1 = sid then some e.2 else fetchSale rest sid

/-- `UPDATE sales SET status='Cancelled', cancellation_reason=?,
cancelled_by=?, cancellation_timestamp=? WHERE id=?`
(database.py lines 239-240). -/
def updateSaleStatus (sales : List (ℕ × Sale)) (sid : ℕ)
    (reason operator now : String) : List (ℕ × Sale) :=
  sales.map (fun e =>
    if e.1 = sid then
      (e.1, { e.2 with status := "Cancelled", cancellation_reason := some reason,
                       cancelled_by := some operator, cancellation_timestamp := some now })
    else e)

/-- The mutation block of `cancel_sale_transaction`
(database.py lines 227-244), applied to the fetched sale row `s`:
restore stock and sales count once per stored item id, subtract the
sale total from the linked customer's spend (only that field — the
source does not touch visits or segment here), mark the sale row
cancelled, and append the audit log entry. -/
def cancelApply (db : DB) (sale_id : ℕ) (s : Sale)
    (reason operator now : String) : DB :=
  let ps := s.items_data.foldl restoreItem db.products
  let customers :=
    match s.customer_mobile with
    | none => db.customers
    | some m =>
      if m = "" then db.customers
      else
        fun k =>
          if k = m then
            (db.customers m).map (fun cu =>
              { cu with total_spend := cu.total_spend - s.total_amount })
          else db.customers k
  let sales := updateSaleStatus db.sales sale_id reason operator now
  let entry : LogEntry :=
    { timestamp := now, user := operator, action := "Undo Sale",
      details := "Cancelled Sale #" ++ toString sale_id ++ ". Reason: " ++ reason }
  { db with products := ps, customers := customers, sales := sales,
            logs := db.logs ++ [entry] }

/-- `cancel_sale_transaction` (database.py lines 203-253).  `ph` is the
sha256 hash of the entered password (the source computes it on line 211
and compares it against `users.password_hash`).  The `role` argument is
accepted by the source but never read by its body; the embedding keeps
it to mirror the signature.  Returns the `(success, message)` pair and
the resulting database state; every failing branch returns before any
write, so the state is returned unchanged there. -/
def cancel_sale_transaction (db : DB) (sale_id : ℕ)
    (operator role reason ph now : String) : (Bool × String) × DB :=
  if (pyStrip reason).length < 3 then
    ((false, "Cancellation reason is mandatory and must be descriptive."), db)
  else
    match db.users operator with
    | none => ((false, "Invalid Password. Identity verification failed."), db)
    | some u =>
      if u.password_hash ≠ ph then
        ((false, "Invalid Password. Identity verification failed."), db)
      else
        match fetchSale db.sales sale_id with
        | none => ((false, "Sale ID not found"), db)
        | some s =>
          if s.status = "Cancelled" then ((false, "Sale already cancelled"), db)
          else
            ((true, "Success. Order cancelled."),
              cancelApply db sale_id s reason operator now)

/-- `upsert_customer` (database.py lines 272-284): if the (trimmed)
mobile already has a row, update only name and email; otherwise insert a
fresh row with visits 0, total spend 0 and segment `New`. -/
def upsert_customer (customers : String → Option Customer)
    (mobile name email : String) : String → Option Customer :=
  let m := pyStrip mobile
  match customers m with
  | some _ =>
    fun k =>
      if k = m then (customers k).map (fun cu => { cu with name := name, email := email })
      else customers k
  | none =>
    fun k =>
      if k = m then
        some { name := name, email := email, visits := 0, total_spend := 0, segment := "New" }
      else customers k

/-- The rows `get_category_performance` reads from the sales table:
`SELECT items_data, total_amount FROM sales` plus the status column the
`WHERE` clause filters on. -/
structure SaleRow where
  items_data : List ℕ
  total_amount : ℚ
  status : String
deriving Repr, DecidableEq

/-- `products.set_index('id')['category'].to_dict()` followed by
`cat_map.get(iid, "Unknown")` (database.py lines 666, 677): a lookup
table from product id to category, defaulting to `Unknown`; for
duplicate ids the later row wins, as in a Python dict built in order. -/
def catMap (products : List (ℕ × String)) : ℕ → String :=
  products.foldl (fun m e => fun j => if j = e.1 then e.2 else m j) (fun _ => "Unknown")

/-- `get_category_performance` (database.py lines 659-682) as the map
from category to accumulated revenue (the source additionally converts
this dictionary to a sorted DataFrame, which is presentation only).
The `WHERE status != 'Cancelled'` clause is the filter; empty item lists
are skipped (the source guards `if row['items_data']` and
`if not item_ids: continue`); each item contributes
`total_amount / len(item_ids)` to its category. -/
def get_category_performance (products : List (ℕ × String))
    (sales : List SaleRow) : String → ℚ :=
  let cmap := catMap products
  (sales.filter (fun r => r.status ≠ "Cancelled")).foldl
    (fun acc r =>
      if r.items_data = [] then acc
      else
        r.items_data.foldl
          (fun a iid => fun c =>
            if c = cmap iid then a c + r.total_amount / r.items_data.length else a c)
          acc)
    (fun _ => 0)

/-- One client-visible operation of the transaction core. -/
inductive Op where
  | commit (cart : List ℕ) (total : ℚ) (mode operator : String)
      (customer_mobile : Option String)
  | cancel (sale_id : ℕ) (operator role reason ph now : String)

/-- The state effect of one operation. -/
def step (db : DB) (op : Op) : DB :=
  match op with
  | .commit cart total mode operator m =>
      (process_sale_transaction db cart total mode operator m).2
  | .cancel sid operator role reason ph now =>
      (cancel_sale_transaction db sid operator role reason ph now).2

/-- Run a sequence of operations. -/
def run (db : DB) (ops : List Op) : DB := ops.foldl step db

/-- Units of product `pid` contained in sales that are not cancelled. -/
def completedUnits (sales : List (ℕ × Sale)) (pid : ℕ) : ℤ :=
  (sales.map (fun e =>
    if e.2.status = "Cancelled" then 0 else (e.2.items_data.count pid : ℤ))).sum

/-- Stock of product `pid`, taking a missing product as 0. -/
def stockAt (db : DB) (pid : ℕ) : ℤ :=
  (db.products pid).elim 0 Product.stock

/-- The sale ids of a database are in range and duplicate free:
the AUTOINCREMENT discipline of the sales table. -/
def SalesWF (db : DB) : Prop :=
  (∀ e ∈ db.sales, e.1 < db.next_sale_id) ∧ (db.sales.map Prod.fst).Nodup

/- Concrete states used to evaluate the transaction core on the
scenarios of the specification. -/

/-- A single-product catalog: product 1 with one unit in stock. -/
def demoProduct : Product :=
  { name := "Lays Classic", category := "Snacks", price := 20,
    stock := 1, cost_price := 15, sales_count := 0 }

/-- The two seeded users with their (hashed) credentials abbreviated. -/
def demoUsers : String → Option User :=
  fun u =>
    if u = "admin" then some { password_hash := "H-admin123", role := "Admin" }
    else if u = "operator" then some { password_hash := "H-pos123", role := "Operator" }
    else none

/-- Fresh database: one product, the two users, no sales, no customers. -/
def demoDB : DB :=
  { products := fun i => if i = 1 then some demoProduct else none,
    customers := fun _ => none,
    sales := [], next_sale_id := 1, users := demoUsers, logs := [] }

/-- A customer sitting at spend 60000 (segment High-Value) with one visit. -/
def richCustomer : Customer :=
  { name := "Amit Sharma", email := "amit.s@example.com", visits := 1,
    total_spend := 60000, segment := "High-Value" }

/-- A completed sale of 60000 by `admin`, linked to the rich customer. -/
def bigSale : Sale :=
  { total_amount := 60000, items_data := [1], operator := "admin",
    payment_mode := "Cash", status := "Completed",
    customer_mobile := some "+919876500001", cancellation_reason := none,
    cancelled_by := none, cancellation_timestamp := none }

/-- Database holding `bigSale` as sale 1 and the rich customer. -/
def richDB : DB :=
  { products := fun i => if i = 1 then some demoProduct else none,
    customers := fun m => if m = "+919876500001" then some richCustomer else none,
    sales := [(1, bigSale)], next_sale_id := 2, users := demoUsers, logs := [] }

/-! ### Effect of the per-unit product update loops -/

/-- Folding the commit loop over a cart decrements a product's stock by
the number of cart entries naming it and increments its sales count by
the same number; a missing product stays missing. -/
theorem foldl_commitItem (cart : List ℕ) (ps : ℕ → Option Product) (pid : ℕ) :
    (cart.foldl commitItem ps) pid =
      (ps pid).map (fun p =>
        { p with stock := p.stock - (cart.count pid : ℤ),
                 sales_count := p.sales_count + (cart.count pid : ℤ) }) := by
  induction cart generalizing ps with
  | nil =>
    cases h : ps pid <;> simp [h]
  | cons a t ih =>
    rw [List.foldl_cons, ih]
    by_cases hpa : pid = a
    · subst hpa
      cases h : ps pid with
      | none => simp [commitItem, h]
      | some p =>
        simp [commitItem, h, List.count_cons_self, Product.mk.injEq]
        constructor <;> ring
    · cases h : ps pid with
      | none => simp [commitItem, if_neg hpa, h]
      | some p =>
        rw [List.count_cons_of_ne hpa]
        simp [commitItem, if_neg hpa, h]

/-- Folding the restore loop over an item list increments a product's
stock by the number of entries naming it and decrements its sales count
by the same number; a missing product stays missing. -/
theorem foldl_restoreItem (items : List ℕ) (ps : ℕ → Option Product) (pid : ℕ) :
    (items.foldl restoreItem ps) pid =
      (ps pid).map (fun p =>
        { p with stock := p.stock + (items.count pid : ℤ),
                 sales_count := p.sales_count - (items.count pid : ℤ) }) := by
  induction items generalizing ps with
  | nil =>
    cases h : ps pid <;> simp [h]
  | cons a t ih =>
    rw [List.foldl_cons, ih]
    by_cases hpa : pid = a
    · subst hpa
      cases h : ps pid with
      | none => simp [restoreItem, h]
      | some p =>
        simp [restoreItem, h, List.count_cons_self, Product.mk.injEq]
        constructor <;> ring
    · cases h : ps pid with
      | none => simp [restoreItem, if_neg hpa, h]
      | some p =>
        rw [List.count_cons_of_ne hpa]
        simp [restoreItem, if_neg hpa, h]

/-- Running the restore loop over the very list the commit loop ran over
brings every product row back to its original value. -/
theorem restore_after_commit (cart : List ℕ) (ps : ℕ → Option Product) (pid : ℕ) :
    (cart.foldl restoreItem (cart.foldl commitItem ps)) pid = ps pid := by
  rw [foldl_restoreItem, foldl_commitItem]
  cases h : ps pid with
  | none => simp
  | some p =>
    simp [Product.mk.injEq]

/-! ### Fetch and update on the sales table -/

/-- A fresh sale appended at the end is found when no earlier row has
its id. -/
theorem fetchSale_append (l : List (ℕ × Sale)) (sid : ℕ) (s : Sale)
    (h : fetchSale l sid = none) : fetchSale (l ++ [(sid, s)]) sid = some s := by
  induction l with
  | nil => simp [fetchSale]
  | cons e rest ih =>
    by_cases he : e.1 = sid
    · simp [fetchSale, he] at h
    · simp only [fetchSale, if_neg he, List.cons_append] at h ⊢
      exact ih h

/-- Fetching after the cancellation update returns the fetched row with
its status flipped to `Cancelled` and the cancellation metadata set. -/
theorem fetchSale_updateSaleStatus (l : List (ℕ × Sale)) (sid : ℕ)
    (reason operator now : String) :
    fetchSale (updateSaleStatus l sid reason operator now) sid =
      (fetchSale l sid).map (fun s =>
        { s with status := "Cancelled", cancellation_reason := some reason,
                 cancelled_by := some operator, cancellation_timestamp := some now }) := by
  induction l with
  | nil => simp [fetchSale, updateSaleStatus]
  | cons e rest ih =>
    by_cases he : e.1 = sid
    · simp [updateSaleStatus, fetchSale, he]
    · simp only [updateSaleStatus, List.map_cons, if_neg he] at ih ⊢
      simp only [fetchSale, if_neg he]
      exact ih

/-- The cancellation update leaves the key column untouched. -/
theorem updateSaleStatus_keys (l : List (ℕ × Sale)) (sid : ℕ)
    (reason operator now : String) :
    (updateSaleStatus l sid reason operator now).map Prod.fst = l.map Prod.fst := by
  induction l with
  | nil => rfl
  | cons e rest ih =>
    by_cases he : e.1 = sid <;> simp [updateSaleStatus, he] at ih ⊢ <;> exact ih

/-- If no row carries the id, the cancellation update is the identity. -/
theorem updateSaleStatus_not_mem (l : List (ℕ × Sale)) (sid : ℕ)
    (reason operator now : String) (h : ∀ e ∈ l, e.1 ≠ sid) :
    updateSaleStatus l sid reason operator now = l := by
  induction l with
  | nil => rfl
  | cons e rest ih =>
    have he : e.1 ≠ sid := h e (List.mem_cons_self e rest)
    simp only [updateSaleStatus, List.map_cons, if_neg he]
    have := ih (fun x hx => h x (List.mem_cons_of_mem e hx))
    simp only [updateSaleStatus] at this
    rw [this]

/-! ### Bookkeeping for the stock-conservation invariant -/

theorem completedUnits_cons (e : ℕ × Sale) (l : List (ℕ × Sale)) (pid : ℕ) :
    completedUnits (e :: l) pid =
      (if e.2.status = "Cancelled" then 0 else (e.2.items_data.count pid : ℤ)) +
        completedUnits l pid := by
  simp [completedUnits]

theorem completedUnits_append (l : List (ℕ × Sale)) (e : ℕ × Sale) (pid : ℕ) :
    completedUnits (l ++ [e]) pid =
      completedUnits l pid +
        (if e.2.status = "Cancelled" then 0 else (e.2.items_data.count pid : ℤ)) := by
  simp [completedUnits]

/-- Cancelling one non-cancelled sale removes exactly its units from the
non-cancelled total, provided sale ids are unique. -/
theorem completedUnits_update (l : List (ℕ × Sale)) (sid : ℕ)
    (reason operator now : String) (pid : ℕ) (s : Sale)
    (hnd : (l.map Prod.fst).Nodup) (hf : fetchSale l sid = some s)
    (hs : s.status ≠ "Cancelled") :
    completedUnits (updateSaleStatus l sid reason operator now) pid =
      completedUnits l pid - (s.items_data.count pid : ℤ) := by
  induction l with
  | nil => simp [fetchSale] at hf
  | cons e rest ih =>
    rw [List.map_cons, List.nodup_cons] at hnd
    by_cases he : e.1 = sid
    · have hse : s = e.2 := by
        simp only [fetchSale, if_pos he, Option.some.injEq] at hf
        exact hf.symm
      subst hse
      have hnot : ∀ x ∈ rest, x.1 ≠ sid := by
        intro x hx hxe
        exact hnd.1 (he ▸ hxe ▸ List.mem_map_of_mem Prod.fst hx)
      simp only [updateSaleStatus, List.map_cons, if_pos he]
      rw [show List.map _ rest = updateSaleStatus rest sid reason operator now from rfl,
        updateSaleStatus_not_mem rest sid reason operator now hnot]
      rw [completedUnits_cons, completedUnits_cons]
      simp [if_neg hs]
    · have hf' : fetchSale rest sid = some s := by
        simpa [fetchSale, if_neg he] using hf
      simp only [updateSaleStatus, List.map_cons, if_neg he]
      rw [show List.map _ rest = updateSaleStatus rest sid reason operator now from rfl]
      rw [completedUnits_cons, completedUnits_cons, ih hnd.2 hf']
      ring

/-- Case analysis on `cancel_sale_transaction`: either some check fails
and the state is unchanged, or the fetched sale is not yet cancelled and
the mutation block runs. -/
theorem cancel_state_cases (db : DB) (sid : ℕ)
    (operator role reason ph now : String) :
    (cancel_sale_transaction db sid operator role reason ph now).2 = db ∨
    ∃ s, fetchSale db.sales sid = some s ∧ s.status ≠ "Cancelled" ∧
      (cancel_sale_transaction db sid operator role reason ph now).2 =
        cancelApply db sid s reason operator now := by
  by_cases h1 : (pyStrip reason).length < 3
  · left; simp [cancel_sale_transaction, h1]
  · cases h2 : db.users operator with
    | none => left; simp [cancel_sale_transaction, h1, h2]
    | some u =>
      by_cases h3 : u.password_hash = ph
      · cases h4 : fetchSale db.sales sid with
        | none => left; simp [cancel_sale_transaction, h1, h2, h3, h4]
        | some s =>
          by_cases h5 : s.status = "Cancelled"
          · left; simp [cancel_sale_transaction, h1, h2, h3, h4, h5]
          · right
            exact ⟨s, rfl, h5, by simp [cancel_sale_transaction, h1, h2, h3, h4, h5]⟩
      · left; simp [cancel_sale_transaction, h1, h2, h3]

/-- When every check passes, `cancel_sale_transaction` reports success
and applies exactly the mutation block. -/
theorem cancel_success (db : DB) (sid : ℕ) (operator role reason ph now : String)
    (u : User) (s : Sale)
    (h1 : ¬ (pyStrip reason).length < 3) (h2 : db.users operator = some u)
    (h3 : u.password_hash = ph) (h4 : fetchSale db.sales sid = some s)
    (h5 : s.status ≠ "Cancelled") :
    cancel_sale_transaction db sid operator role reason ph now =
      ((true, "Success. Order cancelled."), cancelApply db sid s reason operator now) := by
  simp [cancel_sale_transaction, h1, h2, h3, h4, h5]

theorem completed_ne_cancelled : ("Completed" : String) ≠ "Cancelled" := by decide

/-- Existence of a product row is unaffected by any core operation. -/
theorem step_products_isSome (db : DB) (op : Op) (pid : ℕ) :
    ((step db op).products pid).isSome = (db.products pid).isSome := by
  cases op with
  | commit cart total mode operator m =>
    have h : (step db (Op.commit cart total mode operator m)).products
        = cart.foldl commitItem db.products := rfl
    rw [h, foldl_commitItem]
    cases db.products pid <;> simp
  | cancel sid operator role reason ph now =>
    have hstep : step db (Op.cancel sid operator role reason ph now)
        = (cancel_sale_transaction db sid operator role reason ph now).2 := rfl
    rcases cancel_state_cases db sid operator role reason ph now with h | ⟨s, _, _, h⟩
    · rw [hstep, h]
    · rw [hstep, h]
      have h2 : (cancelApply db sid s reason operator now).products
          = s.items_data.foldl restoreItem db.products := rfl
      rw [h2, foldl_restoreItem]
      cases db.products pid <;> simp

/-- Every core operation preserves the sale-id discipline. -/
theorem step_wf (db : DB) (op : Op) (hwf : SalesWF db) : SalesWF (step db op) := by
  obtain ⟨hb, hnd⟩ := hwf
  cases op with
  | commit cart total mode operator m =>
    have hsales : (step db (Op.commit cart total mode operator m)).sales
        = db.sales ++ [(db.next_sale_id, commitSaleRow cart total mode operator m)] := rfl
    have hnext : (step db (Op.commit cart total mode operator m)).next_sale_id
        = db.next_sale_id + 1 := rfl
    constructor
    · intro e he
      rw [hsales] at he
      rw [hnext]
      rcases List.mem_append.mp he with he | he
      · exact Nat.lt_succ_of_lt (hb e he)
      · rw [List.mem_singleton.mp he]
        exact Nat.lt_succ_self _
    · rw [hsales, List.map_append, List.map_singleton]
      rw [List.nodup_append]
      refine ⟨hnd, List.nodup_singleton _, ?_⟩
      intro a ha ha'
      rw [List.mem_singleton] at ha'
      obtain ⟨e, he, hae⟩ := List.mem_map.mp ha
      have := hb e he
      omega
  | cancel sid operator role reason ph now =>
    have hstep : step db (Op.cancel sid operator role reason ph now)
        = (cancel_sale_transaction db sid operator role reason ph now).2 := rfl
    rcases cancel_state_cases db sid operator role reason ph now with h | ⟨s, hf, hs, h⟩
    · rw [hstep, h]; exact ⟨hb, hnd⟩
    · rw [hstep, h]
      have hsales : (cancelApply db sid s reason operator now).sales
          = updateSaleStatus db.sales sid reason operator now := rfl
      have hnext : (cancelApply db sid s reason operator now).next_sale_id
          = db.next_sale_id := rfl
      constructor
      · intro e he
        have hmem : e.1 ∈ (updateSaleStatus db.sales sid reason operator now).map Prod.fst := by
          rw [hsales] at he
          exact List.mem_map_of_mem Prod.fst he
        rw [updateSaleStatus_keys] at hmem
        obtain ⟨e', he', heq⟩ := List.mem_map.mp hmem
        rw [hnext, ← heq]
        exact hb e' he'
      · rw [hsales, updateSaleStatus_keys]
        exact hnd

/-- One operation never changes the conserved quantity
`stock on hand + units out in non-cancelled sales` of an existing product. -/
theorem step_ledger (db : DB) (op : Op) (pid : ℕ) (hwf : SalesWF db)
    (hp : (db.products pid).isSome = true) :
    stockAt (step db op) pid + completedUnits (step db op).sales pid
      = stockAt db pid + completedUnits db.sales pid := by
  obtain ⟨p, hp'⟩ := Option.isSome_iff_exists.mp hp
  cases op with
  | commit cart total mode operator m =>
    have h1 : (step db (Op.commit cart total mode operator m)).products pid
        = some { p with stock := p.stock - (cart.count pid : ℤ),
                        sales_count := p.sales_count + (cart.count pid : ℤ) } := by
      have h : (step db (Op.commit cart total mode operator m)).products
          = cart.foldl commitItem db.products := rfl
      rw [h, foldl_commitItem, hp']
      rfl
    have h2 : (step db (Op.commit cart total mode operator m)).sales
        = db.sales ++ [(db.next_sale_id, commitSaleRow cart total mode operator m)] := rfl
    rw [stockAt, h1, h2, completedUnits_append, stockAt, hp']
    simp [commitSaleRow, completed_ne_cancelled]
  | cancel sid operator role reason ph now =>
    have hstep : step db (Op.cancel sid operator role reason ph now)
        = (cancel_sale_transaction db sid operator role reason ph now).2 := rfl
    rcases cancel_state_cases db sid operator role reason ph now with h | ⟨s, hf, hs, h⟩
    · rw [hstep, h]
    · rw [hstep, h]
      have h1 : (cancelApply db sid s reason operator now).products pid
          = some { p with stock := p.stock + (s.items_data.count pid : ℤ),
                          sales_count := p.sales_count - (s.items_data.count pid : ℤ) } := by
        have hq : (cancelApply db sid s reason operator now).products
            = s.items_data.foldl restoreItem db.products := rfl
        rw [hq, foldl_restoreItem, hp']
        rfl
      have h2 : (cancelApply db sid s reason operator now).sales
          = updateSaleStatus db.sales sid reason operator now := rfl
      rw [stockAt, h1, h2,
        completedUnits_update db.sales sid reason operator now pid s hwf.2 hf hs,
        stockAt, hp']
      simp

theorem run_wf (ops : List Op) (db : DB) (hwf : SalesWF db) : SalesWF (run db ops) := by
  induction ops generalizing db with
  | nil => exact hwf
  | cons op t ih => exact ih (step db op) (step_wf db op hwf)

theorem run_products_isSome (ops : List Op) (db : DB) (pid : ℕ) :
    ((run db ops).products pid).isSome = (db.products pid).isSome := by
  induction ops generalizing db with
  | nil => rfl
  | cons op t ih =>
    have h : run db (op :: t) = run (step db op) t := rfl
    rw [h, ih (step db op), step_products_isSome]

theorem run_ledger (ops : List Op) (db : DB) (pid : ℕ) (hwf : SalesWF db)
    (hp : (db.products pid).isSome = true) :
    stockAt (run db ops) pid + completedUnits (run db ops).sales pid
      = stockAt db pid + completedUnits db.sales pid := by
  induction ops generalizing db with
  | nil => rfl
  | cons op t ih =>
    have h : run db (op :: t) = run (step db op) t := rfl
    rw [h, ih (step db op) (step_wf db op hwf)
      (by rw [step_products_isSome]; exact hp)]
    exact step_ledger db op pid hwf hp

/-! ### Claim theorems -/

/-- C2 (amended): for all sequences of commit/cancel operations on a fixed
catalog starting from a committed state with an empty sales ledger, every
product's stock equals its initial stock minus the units of that product
contained in sales that are still non-cancelled (equivalently: minus units
sold plus units cancelled).  The claim's further clause that stock is never
negative is false — see the counterexample — because the commit performs no
stock validation. -/
theorem stock_conservation (init : DB) (ops : List Op) (pid : ℕ) (p : Product)
    (h0 : init.sales = []) (hp : init.products pid = some p) :
    ∃ p', (run init ops).products pid = some p' ∧
      p'.stock = p.stock - completedUnits (run init ops).sales pid := by
  have hwf : SalesWF init := by
    constructor
    · intro e he
      rw [h0] at he
      exact absurd he (List.not_mem_nil e)
    · rw [h0]
      exact List.nodup_nil
  have hsome : ((run init ops).products pid).isSome = true := by
    rw [run_products_isSome, hp]
    rfl
  obtain ⟨p', hp'⟩ := Option.isSome_iff_exists.mp hsome
  refine ⟨p', hp', ?_⟩
  have hl := run_ledger ops init pid hwf (by rw [hp]; rfl)
  simp only [stockAt, hp, hp', Option.elim] at hl
  have hz : completedUnits init.sales pid = 0 := by rw [h0]; rfl
  rw [hz] at hl
  linarith

/-- C2, counterexample to the non-negativity clause: starting from stock 1,
the single commit of the two-unit cart `[1, 1]` reaches a committed state in
which product 1 has stock −1. -/
theorem stock_can_go_negative :
    stockAt (run demoDB [Op.commit [1, 1] 40 "Cash" "admin" none]) 1 = -1 ∧
    (-1 : ℤ) < 0 := by
  refine ⟨by decide, by decide⟩

/-- Witness for `stock_conservation` at a concrete commit/cancel sequence. -/
theorem stock_conservation_witness :
    ∃ p', (run demoDB [Op.commit [1] 20 "Cash" "admin" none,
        Op.cancel 1 "admin" "Admin" "damaged goods" "H-admin123" "t1"]).products 1
          = some p' ∧
      p'.stock = demoProduct.stock -
        completedUnits (run demoDB [Op.commit [1] 20 "Cash" "admin" none,
          Op.cancel 1 "admin" "Admin" "damaged goods" "H-admin123" "t1"]).sales 1 :=
  stock_conservation demoDB
    [Op.commit [1] 20 "Cash" "admin" none,
     Op.cancel 1 "admin" "Admin" "damaged goods" "H-admin123" "t1"]
    1 demoProduct rfl rfl

/-- C1 (code_bug evidence): product 1 has stock 1 but the cart demands two
units; the claim (and spec §4.1/P2) requires the commit to fail with
`StockError` and mutate nothing.  Instead `process_sale_transaction` returns
a sale id, drives the stock to −1, and creates a Completed sale row: the
commit path contains no stock or existence validation at all. -/
theorem commit_no_stock_validation_bug :
    demoDB.products 1 = some demoProduct ∧ demoProduct.stock = 1 ∧
    (process_sale_transaction demoDB [1, 1] 40 "Cash" "admin" none).1 = 1 ∧
    (process_sale_transaction demoDB [1, 1] 40 "Cash" "admin" none).2.products 1
      = some { demoProduct with stock := -1, sales_count := 2 } ∧
    fetchSale (process_sale_transaction demoDB [1, 1] 40 "Cash" "admin" none).2.sales 1
      = some (commitSaleRow [1, 1] 40 "Cash" "admin" none) := by
  refine ⟨by decide, by decide, rfl, by decide, by decide⟩

/-- C3 (code_bug evidence): sale 1 of `richDB` was made by `admin`; the user
`operator` holds the restricted role `Operator` and presents their own valid
credential, so per the claim the cancellation must fail with `AuthError`.
The code succeeds and flips the sale to `Cancelled`: the `role` argument of
`cancel_sale_transaction` is accepted but never read, and no ownership check
exists. -/
theorem cancel_ignores_role_bug :
    (richDB.users "operator").map User.role = some "Operator" ∧
    bigSale.operator = "admin" ∧
    (cancel_sale_transaction richDB 1 "operator" "Operator" "customer changed mind"
        "H-pos123" "t1").1 = (true, "Success. Order cancelled.") ∧
    (fetchSale (cancel_sale_transaction richDB 1 "operator" "Operator"
        "customer changed mind" "H-pos123" "t1").2.sales 1).map Sale.status
      = some "Cancelled" := by
  refine ⟨by decide, by decide, by decide, by decide⟩

/-- C4, counterexample: cancelling `richDB`'s sale of total 60000 returns the
linked customer's spend to 0 but leaves the stored segment at `High-Value`,
whereas recomputation from the new spend (as the claim requires) yields
`Occasional`: the cancel path never recomputes the segment. -/
theorem cancel_does_not_recompute_segment :
    (cancel_sale_transaction richDB 1 "admin" "Admin" "defective item"
        "H-admin123" "t1").2.customers "+919876500001"
      = some { richCustomer with total_spend := 0 } ∧
    ({ richCustomer with total_spend := (0 : ℚ) }).segment = "High-Value" ∧
    segmentForSpend 0 ≠ "High-Value" := by
  refine ⟨?_, by decide, by decide⟩
  rw [cancel_success richDB 1 "admin" "Admin" "defective item" "H-admin123" "t1"
    { password_hash := "H-admin123", role := "Admin" } bigSale
    (by decide) (by decide) rfl (by decide) (by decide)]
  show (cancelApply richDB 1 bigSale "defective item" "admin" "t1").customers
      "+919876500001" = _
  simp [cancelApply, richDB, bigSale, richCustomer, Customer.mk.injEq]

/-- C4 (amended): for every successful cancellation of a sale linked to an
existing customer, the customer's total spend decreases by exactly the sale's
total amount, while the visit count AND the stored segment are left unchanged
(no segment recomputation happens on cancellation). -/
theorem cancel_customer_spend_update (db : DB) (sid : ℕ)
    (operator role reason ph now : String) (u : User) (s : Sale) (m : String)
    (cu : Customer)
    (h1 : ¬ (pyStrip reason).length < 3) (h2 : db.users operator = some u)
    (h3 : u.password_hash = ph) (h4 : fetchSale db.sales sid = some s)
    (h5 : s.status ≠ "Cancelled") (h6 : s.customer_mobile = some m)
    (h7 : m ≠ "") (h8 : db.customers m = some cu) :
    (cancel_sale_transaction db sid operator role reason ph now).1.1 = true ∧
    (cancel_sale_transaction db sid operator role reason ph now).2.customers m
      = some { cu with total_spend := cu.total_spend - s.total_amount } := by
  rw [cancel_success db sid operator role reason ph now u s h1 h2 h3 h4 h5]
  refine ⟨rfl, ?_⟩
  show (cancelApply db sid s reason operator now).customers m = _
  simp [cancelApply, h6, h7, h8]

/-- Witness for `cancel_customer_spend_update` on the concrete `richDB`. -/
theorem cancel_customer_spend_update_witness :
    (cancel_sale_transaction richDB 1 "admin" "Admin" "wrong order entry"
        "H-admin123" "t1").1.1 = true ∧
    (cancel_sale_transaction richDB 1 "admin" "Admin" "wrong order entry"
        "H-admin123" "t1").2.customers "+919876500001"
      = some { richCustomer with
                 total_spend := richCustomer.total_spend - bigSale.total_amount } :=
  cancel_customer_spend_update richDB 1 "admin" "Admin" "wrong order entry"
    "H-admin123" "t1" { password_hash := "H-admin123", role := "Admin" }
    bigSale "+919876500001" richCustomer
    (by decide) (by decide) rfl (by decide) (by decide) rfl (by decide) (by decide)

/-- C5, counterexample: committing a sale that references a customer mobile
with no existing record leaves the customers table without that record — the
commit path does not implicitly create customers, contrary to the claim that
the record exists afterwards. -/
theorem commit_does_not_create_customer :
    (process_sale_transaction demoDB [1] 100 "Cash" "admin"
        (some "+919999999999")).2.customers "+919999999999" = none := by
  decide

/-- C5 (amended): for every commit carrying a nonempty customer reference,
if the (stripped) mobile has an existing record then its total spend grows by
the sale total, its visit count by exactly 1, and its segment is recomputed
from the new spend; if there is no record, the customers table is left
entirely unchanged. -/
theorem commit_customer_update (db : DB) (cart : List ℕ) (total : ℚ)
    (mode operator m0 : String) (hm : m0 ≠ "") :
    (∀ cu, db.customers (pyStrip m0) = some cu →
      (process_sale_transaction db cart total mode operator (some m0)).2.customers
          (pyStrip m0)
        = some { cu with visits := cu.visits + 1, total_spend := cu.total_spend + total,
                         segment := segmentForSpend (cu.total_spend + total) }) ∧
    (db.customers (pyStrip m0) = none →
      (process_sale_transaction db cart total mode operator (some m0)).2.customers
        = db.customers) := by
  constructor
  · intro cu hcu
    simp [process_sale_transaction, hm, hcu]
  · intro hcu
    simp [process_sale_transaction, hm, hcu]

/-- Witness for `commit_customer_update` on the concrete `richDB`. -/
theorem commit_customer_update_witness :
    (process_sale_transaction richDB [1] 100 "Cash" "admin"
        (some "+919876500001")).2.customers (pyStrip "+919876500001")
      = some { richCustomer with
                 visits := richCustomer.visits + 1,
                 total_spend := richCustomer.total_spend + 100,
                 segment := segmentForSpend (richCustomer.total_spend + 100) } :=
  (commit_customer_update richDB [1] 100 "Cash" "admin" "+919876500001"
    (by decide)).1 richCustomer (by decide)

/-- C6, counterexample: at spend 12000 with one visit the demo seeding path
computes `Occasional` while the claim requires `Regular` (10000 < 12000 ≤
50000) of every segment computation in the program; the commit path does
return `Regular` there, exhibiting the 10000 vs 15000 boundary mismatch. -/
theorem seed_segment_threshold_mismatch :
    seedSegment 12000 1 = "Occasional" ∧ segmentForSpend 12000 = "Regular" ∧
    "Occasional" ≠ "Regular" := by
  refine ⟨by decide, by decide, by decide⟩

/-- C6 (amended): segmentation is a pure function of the inputs everywhere
(recomputation on equal spend is trivially equal); the transaction path
follows exactly the claimed thresholds — `High-Value` iff spend > 50000,
`Regular` iff 10000 < spend ≤ 50000, `Occasional` iff spend ≤ 10000 — while
the demo seeding path instead uses 15000 as the Regular/Occasional boundary
and maps zero visits to `New`. -/
theorem segment_thresholds (spend : ℚ) :
    ((segmentForSpend spend = "High-Value") ↔ 50000 < spend) ∧
    ((segmentForSpend spend = "Regular") ↔ 10000 < spend ∧ spend ≤ 50000) ∧
    ((segmentForSpend spend = "Occasional") ↔ spend ≤ 10000) ∧
    (∀ visits : ℤ, seedSegment spend visits =
      if visits = 0 then "New"
      else if 50000 < spend then "High-Value"
      else if 15000 < spend then "Regular"
      else "Occasional") := by
  rcases lt_or_le 50000 spend with h1 | h1
  · have hseg : segmentForSpend spend = "High-Value" := by
      simp [segmentForSpend, h1]
    refine ⟨?_, ?_, ?_, ?_⟩
    · simp [hseg, h1]
    · rw [hseg]
      constructor
      · intro h; exact absurd h (by decide)
      · rintro ⟨-, hb⟩; exact absurd h1 (not_lt.mpr hb)
    · rw [hseg]
      constructor
      · intro h; exact absurd h (by decide)
      · intro hb; exact absurd h1 (not_lt.mpr (by linarith))
    · intro visits
      simp [seedSegment, h1]
  · have hn1 : ¬ 50000 < spend := not_lt.mpr h1
    rcases lt_or_le 10000 spend with h2 | h2
    · have hseg : segmentForSpend spend = "Regular" := by
        simp [segmentForSpend, hn1, h2]
      refine ⟨?_, ?_, ?_, ?_⟩
      · rw [hseg]
        constructor
        · intro h; exact absurd h (by decide)
        · intro hb; exact absurd hb hn1
      · simp [hseg, h2, h1]
      · rw [hseg]
        constructor
        · intro h; exact absurd h (by decide)
        · intro hb; exact absurd h2 (not_lt.mpr hb)
      · intro visits
        simp [seedSegment, hn1]
    · have hn2 : ¬ 10000 < spend := not_lt.mpr h2
      have hn15 : ¬ 15000 < spend := not_lt.mpr (by linarith)
      have hseg : segmentForSpend spend = "Occasional" := by
        simp [segmentForSpend, hn1, hn2]
      refine ⟨?_, ?_, ?_, ?_⟩
      · rw [hseg]
        constructor
        · intro h; exact absurd h (by decide)
        · intro hb; exact absurd hb hn1
      · rw [hseg]
        constructor
        · intro h; exact absurd h (by decide)
        · rintro ⟨ha, -⟩; exact absurd ha hn2
      · simp [hseg, h2]
      · intro visits
        simp [seedSegment, hn1, hn15]

/-- C7: with a fresh sale id, committing a cart and then immediately
cancelling that very sale (with any valid reason and credential) returns
every product row — stock and sales count included — to its exact pre-commit
value: the per-unit restore loop of cancel is the inverse of the per-unit
decrement loop of commit. -/
theorem cancel_inverts_commit (db : DB) (cart : List ℕ) (total : ℚ)
    (mode operator : String) (m : Option String)
    (op2 role2 reason ph now : String) (u : User)
    (hfresh : fetchSale db.sales db.next_sale_id = none)
    (h1 : ¬ (pyStrip reason).length < 3)
    (h2 : db.users op2 = some u) (h3 : u.password_hash = ph) :
    ∀ pid, (cancel_sale_transaction
        (process_sale_transaction db cart total mode operator m).2
        (process_sale_transaction db cart total mode operator m).1
        op2 role2 reason ph now).2.products pid
      = db.products pid := by
  intro pid
  have hid : (process_sale_transaction db cart total mode operator m).1
      = db.next_sale_id := rfl
  have hsales : (process_sale_transaction db cart total mode operator m).2.sales
      = db.sales ++ [(db.next_sale_id, commitSaleRow cart total mode operator m)] := rfl
  have husers : (process_sale_transaction db cart total mode operator m).2.users
      = db.users := rfl
  have hfetch : fetchSale (process_sale_transaction db cart total mode operator m).2.sales
      db.next_sale_id = some (commitSaleRow cart total mode operator m) := by
    rw [hsales]
    exact fetchSale_append db.sales db.next_sale_id _ hfresh
  have hstat : (commitSaleRow cart total mode operator m).status ≠ "Cancelled" :=
    completed_ne_cancelled
  rw [hid, cancel_success (process_sale_transaction db cart total mode operator m).2
    db.next_sale_id op2 role2 reason ph now u (commitSaleRow cart total mode operator m)
    h1 (by rw [husers]; exact h2) h3 hfetch hstat]
  show ((commitSaleRow cart total mode operator m).items_data.foldl restoreItem
      (process_sale_transaction db cart total mode operator m).2.products) pid
    = db.products pid
  have hcart : (commitSaleRow cart total mode operator m).items_data = cart := rfl
  have hps : (process_sale_transaction db cart total mode operator m).2.products
      = cart.foldl commitItem db.products := rfl
  rw [hcart, hps]
  exact restore_after_commit cart db.products pid

/-- Witness for `cancel_inverts_commit`: commit then cancel of the two-unit
cart on the concrete `demoDB` leaves product 1 exactly as it started. -/
theorem cancel_inverts_commit_witness :
    (cancel_sale_transaction
        (process_sale_transaction demoDB [1, 1] 40 "Cash" "admin" none).2
        (process_sale_transaction demoDB [1, 1] 40 "Cash" "admin" none).1
        "admin" "Admin" "damaged goods" "H-admin123" "t1").2.products 1
      = demoDB.products 1 :=
  cancel_inverts_commit demoDB [1, 1] 40 "Cash" "admin" none
    "admin" "Admin" "damaged goods" "H-admin123" "t1"
    { password_hash := "H-admin123", role := "Admin" }
    rfl (by decide) (by decide) rfl 1

/-- C8: once a cancellation has succeeded, a second `cancel_sale_transaction`
on the same sale id — by any operator presenting a valid reason and
credential — fails with the `StateError` message `Sale already cancelled`
and leaves the database completely unchanged: a sale's status moves at most
once, from `Completed` to `Cancelled`, and never back. -/
theorem no_double_cancellation (db : DB) (sid : ℕ)
    (op1 role1 reason1 ph1 now1 op2 role2 reason2 ph2 now2 : String)
    (u1 u2 : User) (s : Sale)
    (h1 : ¬ (pyStrip reason1).length < 3) (h2 : db.users op1 = some u1)
    (h3 : u1.password_hash = ph1) (h4 : fetchSale db.sales sid = some s)
    (h5 : s.status ≠ "Cancelled")
    (g1 : ¬ (pyStrip reason2).length < 3) (g2 : db.users op2 = some u2)
    (g3 : u2.password_hash = ph2) :
    (cancel_sale_transaction db sid op1 role1 reason1 ph1 now1).1.1 = true ∧
    cancel_sale_transaction
        (cancel_sale_transaction db sid op1 role1 reason1 ph1 now1).2
        sid op2 role2 reason2 ph2 now2
      = ((false, "Sale already cancelled"),
         (cancel_sale_transaction db sid op1 role1 reason1 ph1 now1).2) := by
  rw [cancel_success db sid op1 role1 reason1 ph1 now1 u1 s h1 h2 h3 h4 h5]
  refine ⟨rfl, ?_⟩
  have husers : (cancelApply db sid s reason1 op1 now1).users = db.users := rfl
  have hf2 : fetchSale (cancelApply db sid s reason1 op1 now1).sales sid
      = some { s with status := "Cancelled", cancellation_reason := some reason1,
                      cancelled_by := some op1, cancellation_timestamp := some now1 } := by
    have hsl : (cancelApply db sid s reason1 op1 now1).sales
        = updateSaleStatus db.sales sid reason1 op1 now1 := rfl
    rw [hsl, fetchSale_updateSaleStatus, h4]
    rfl
  have g2' : (cancelApply db sid s reason1 op1 now1).users op2 = some u2 := by
    rw [husers]; exact g2
  simp [cancel_sale_transaction, g1, g2', g3, hf2]

/-- Witness for `no_double_cancellation` on the concrete `richDB`. -/
theorem no_double_cancellation_witness :
    (cancel_sale_transaction richDB 1 "admin" "Admin" "wrong item" "H-admin123"
        "t1").1.1 = true ∧
    cancel_sale_transaction
        (cancel_sale_transaction richDB 1 "admin" "Admin" "wrong item" "H-admin123"
          "t1").2
        1 "operator" "Operator" "duplicate bill" "H-pos123" "t2"
      = ((false, "Sale already cancelled"),
         (cancel_sale_transaction richDB 1 "admin" "Admin" "wrong item" "H-admin123"
           "t1").2) :=
  no_double_cancellation richDB 1 "admin" "Admin" "wrong item" "H-admin123" "t1"
    "operator" "Operator" "duplicate bill" "H-pos123" "t2"
    { password_hash := "H-admin123", role := "Admin" }
    { password_hash := "H-pos123", role := "Operator" } bigSale
    (by decide) (by decide) rfl (by decide) (by decide) (by decide) (by decide) rfl

/-- The per-sale inner accumulation of `get_category_performance`: each of
the `l` items adds `q` to its category's bucket. -/
theorem catPerf_inner (l : List ℕ) (cmap : ℕ → String) (q : ℚ)
    (acc : String → ℚ) (c : String) :
    (l.foldl (fun a iid => fun cc => if cc = cmap iid then a cc + q else a cc) acc) c
      = acc c + ((l.filter (fun i => cmap i = c)).length : ℚ) * q := by
  induction l generalizing acc with
  | nil => simp
  | cons a t ih =>
    rw [List.foldl_cons, ih]
    by_cases h : cmap a = c
    · rw [List.filter_cons_of_pos (by simp [h])]
      simp [h]
      ring
    · rw [List.filter_cons_of_neg (by simp [h])]
      have hne : ¬ c = cmap a := fun hc => h hc.symm
      simp [hne]

/-- The full accumulation of `get_category_performance` over the filtered
sales list, with a generalized accumulator. -/
theorem catPerf_fold (products : List (ℕ × String)) (sales : List SaleRow)
    (acc : String → ℚ) (c : String) :
    ((sales.filter (fun r => r.status ≠ "Cancelled")).foldl
      (fun a r =>
        if r.items_data = [] then a
        else r.items_data.foldl
          (fun a2 iid => fun cc =>
            if cc = catMap products iid then a2 cc + r.total_amount / r.items_data.length
            else a2 cc) a) acc) c
      = acc c + (sales.map (fun r =>
          if r.status = "Cancelled" ∨ r.items_data = [] then 0
          else ((r.items_data.filter (fun i => catMap products i = c)).length : ℚ)
                * (r.total_amount / (r.items_data.length : ℚ)))).sum := by
  induction sales generalizing acc with
  | nil => simp
  | cons r t ih =>
    by_cases hst : r.status = "Cancelled"
    · rw [List.filter_cons_of_neg (by simp [hst])]
      rw [ih]
      simp [hst]
    · rw [List.filter_cons_of_pos (by simp [hst])]
      rw [List.foldl_cons, ih]
      by_cases hit : r.items_data = []
      · simp [hit, hst]
      · rw [if_neg hit, catPerf_inner]
        simp [hst, hit]
        ring

/-- C9: the category-performance report ignores cancelled sales entirely, and
every included sale contributes to each line item's category exactly
`total_amount / (number of line items)` — equal-split attribution, with the
items' own prices never consulted.  The right-hand side makes both facts
explicit: cancelled (or empty) sales contribute 0, and a sale with `n` items
contributes `(matching items) * (total / n)` to category `c`. -/
theorem category_performance_equal_split (products : List (ℕ × String))
    (sales : List SaleRow) (c : String) :
    get_category_performance products sales c
      = (sales.map (fun r =>
          if r.status = "Cancelled" ∨ r.items_data = [] then 0
          else ((r.items_data.filter (fun i => catMap products i = c)).length : ℚ)
                * (r.total_amount / (r.items_data.length : ℚ)))).sum := by
  have h := catPerf_fold products sales (fun _ => 0) c
  simpa [get_category_performance] using h

/-- C10: `upsert_customer` on an existing (stripped) mobile updates only the
name and email fields, leaving visits, total spend and segment untouched and
every other customer row unchanged; on a fresh mobile it inserts a row with
visits 0, total spend 0 and segment `New`. -/
theorem upsert_customer_spec (customers : String → Option Customer)
    (mobile name email : String) :
    (∀ k, k ≠ pyStrip mobile →
      upsert_customer customers mobile name email k = customers k) ∧
    (∀ cu, customers (pyStrip mobile) = some cu →
      upsert_customer customers mobile name email (pyStrip mobile)
        = some { cu with name := name, email := email }) ∧
    (customers (pyStrip mobile) = none →
      upsert_customer customers mobile name email (pyStrip mobile)
        = some { name := name, email := email, visits := 0, total_spend := 0,
                 segment := "New" }) := by
  refine ⟨?_, ?_, ?_⟩
  · intro k hk
    cases h : customers (pyStrip mobile) <;> simp [upsert_customer, h, hk]
  · intro cu hcu
    simp [upsert_customer, hcu]
  · intro hcu
    simp [upsert_customer, hcu]

/-- Witness for `upsert_customer_spec`: one update of an existing customer
and one insertion of a fresh one, on a concrete one-row table. -/
theorem upsert_customer_spec_witness :
    upsert_customer (fun k => if k = "123" then some richCustomer else none)
        "123" "Neha" "neha@example.com" "123"
      = some { richCustomer with name := "Neha", email := "neha@example.com" } ∧
    upsert_customer (fun k => if k = "123" then some richCustomer else none)
        "456" "Ravi" "ravi@example.com" "456"
      = some { name := "Ravi", email := "ravi@example.com", visits := 0,
               total_spend := 0, segment := "New" } := by
  have e1 : pyStrip "123" = "123" := by decide
  have e2 : pyStrip "456" = "456" := by decide
  constructor
  · have h := (upsert_customer_spec
      (fun k => if k = "123" then some richCustomer else none)
      "123" "Neha" "neha@example.com").2.1 richCustomer (by rw [e1]; decide)
    rw [e1] at h
    exact h
  · have h := (upsert_customer_spec
      (fun k => if k = "123" then some richCustomer else none)
      "456" "Ravi" "ravi@example.com").2.2 (by rw [e2]; decide)
    rw [e2] at h
    exact h
